import Mathlib

/-!
Shallow embedding of `crates/apub/src/objects/comment.rs` (the ApubObject
implementation for comments: `read_from_apub_id`, `to_apub`, `to_tombstone`,
`from_apub`) together with the protocol types it uses.

Modelling conventions:
- URLs are a host/path pair; timestamps are natural numbers and the
  `convert_datetime` / `naive_local` conversions (pure re-taggings of the same
  instant) are elided.
- External collaborators invoked through the database pool or the fetcher
  (`Person::read`, `Post::read`, `Comment::read`, `Community::read`,
  `ObjectId::dereference`, `Note::get_parents`, `verify_person_in_community`,
  `remove_slurs`, `markdown_to_html`, `Comment::upsert`,
  `Comment::read_from_apub_id`) are passed in as explicit oracle parameters of
  the corresponding `Except` type, so the conversion logic itself is pure and
  its sequencing is explicit.
- `from_apub` additionally returns the ordered list of collaborator effects it
  performed, so that "no storage write happened" and "step X occurs before
  step Y" are provable statements.
-/

/-- A protocol identifier URL, reduced to the parts the code inspects:
the authority (host) and the rest. -/
structure Url where
  host : String
  path : String
deriving DecidableEq, Repr

/-- The error type; the constructors distinguish the failure classes the code
produces or propagates (`anyhow!("Post is locked")`, domain-mismatch
verification failure, `verify_person_in_community` denial, storage errors). -/
inductive LemmyError where
  | domainMismatch
  | postIsLocked
  | notPermitted
  | storageFail
  | otherErr (msg : String)
deriving DecidableEq, Repr

/-- `activitystreams::object::kind::NoteType`. -/
inductive NoteType where
  | Note
deriving DecidableEq, Repr

/-- `lemmy_apub_lib::values::MediaTypeHtml`. -/
inductive MediaTypeHtml where
  | Html
deriving DecidableEq, Repr

/-- `lemmy_apub_lib::values::MediaTypeMarkdown`. -/
inductive MediaTypeMarkdown where
  | Markdown
deriving DecidableEq, Repr

/-- `crate::protocol::Source`: a literal source block with its media type. -/
structure Source where
  content : String
  media_type : MediaTypeMarkdown
deriving DecidableEq, Repr

/-- Modelled from the spec: the two-variant source-compatibility sum of
`crate::protocol::objects::note::SourceCompat` (defined outside this slice):
the Lemmy variant carries the literal-Markdown source block, the other variant
is the type-tagged compatibility form used for peers without guaranteed
source compatibility. -/
inductive SourceCompat where
  | Lemmy (source : Source)
  | Pleroma (value : String)
deriving DecidableEq, Repr

/-- The wire object `crate::protocol::objects::note::Note`, with the fields
`to_apub` / `from_apub` read or write (`r#type` is rendered as `type` and the
`to` audience list as `to'`, since those are reserved words here; the
`unparsed` extension bag carries no information the code inspects). -/
structure Note where
  type : NoteType
  id : Url
  attributed_to : Url
  to' : List Url
  content : String
  media_type : Option MediaTypeHtml
  source : SourceCompat
  in_reply_to : Url
  published : Option Nat
  updated : Option Nat
  unparsed : Unit
deriving DecidableEq, Repr

/-- Modelled from the spec: the minimal deletion marker
(`crate::protocol::objects::tombstone::Tombstone`, built by
`Tombstone::new(kind, timestamp)` outside this slice): a declared type tag and
the deletion/update timestamp. -/
structure Tombstone where
  type : NoteType
  updated : Nat
deriving DecidableEq, Repr

/-- The persisted comment row `lemmy_db_schema::source::comment::Comment`
(fields the code touches; `local` is rendered `is_local`). -/
structure Comment where
  id : Nat
  creator_id : Nat
  post_id : Nat
  parent_id : Option Nat
  content : String
  removed : Bool
  read : Bool
  published : Nat
  updated : Option Nat
  deleted : Bool
  ap_id : Url
  is_local : Bool
deriving DecidableEq, Repr

/-- `lemmy_db_schema::source::comment::CommentForm` as filled in by
`from_apub` (`local` is rendered `is_local`). -/
structure CommentForm where
  creator_id : Nat
  post_id : Nat
  parent_id : Option Nat
  content : String
  removed : Option Bool
  read : Option Bool
  published : Option Nat
  updated : Option Nat
  deleted : Option Bool
  ap_id : Option Url
  is_local : Option Bool
deriving DecidableEq, Repr

/-- `lemmy_db_schema::source::person::Person` (fields the code touches). -/
structure Person where
  id : Nat
  actor_id : Url
deriving DecidableEq, Repr

/-- `lemmy_db_schema::source::post::Post` (fields the code touches). -/
structure Post where
  id : Nat
  community_id : Nat
  ap_id : Url
  locked : Bool
deriving DecidableEq, Repr

/-- `lemmy_db_schema::source::community::Community` (fields the code touches). -/
structure Community where
  id : Nat
deriving DecidableEq, Repr

/-- The newtype wrapper `ApubComment(Comment)`. -/
structure ApubComment where
  toComment : Comment
deriving DecidableEq, Repr

/-- `activitystreams::public()`, the public collective audience. -/
def publicUrl : Url :=
  { host := "www.w3.org", path := "/ns/activitystreams#Public" }

/-- Modelled from the spec: the identifier validation performed by
`Note::id(expected_domain)` (`lemmy_apub_lib`, outside this slice): the
object's declared identifier must share its domain/authority with the domain
the fetch was performed against; a mismatch is a verification failure and the
identifier is returned unchanged on success, never rewritten. -/
def checkApubId (noteId expected_domain : Url) : Except LemmyError Url :=
  if noteId.host = expected_domain.host then .ok noteId
  else .error .domainMismatch

/-- Helper for `parse_html`: inside a `script` element, drop everything up to
and including the closing `script` tag. -/
def dropScriptBody : List Char → List Char
  | [] => []
  | '<' :: '/' :: 's' :: 'c' :: 'r' :: 'i' :: 'p' :: 't' :: '>' :: rest => rest
  | _ :: rest => dropScriptBody rest

/-- Helper for `parse_html`: after an opening `<`, read the tag text up to the
closing `>`; `none` on a dangling `<`. -/
def splitTag (cs : List Char) : Option (List Char × List Char) :=
  let p := cs.span (fun c => c ≠ '>')
  match p.2 with
  | '>' :: r => some (p.1, r)
  | _ => none

/-- Helper for `parse_html`: the fuelled tag-walking loop. Script elements are
dropped entirely with their content; bold markup becomes Markdown `**`;
other tags are stripped; text is kept. -/
def htmlToMdAux : Nat → List Char → List Char
  | 0, _ => []
  | _ + 1, [] => []
  | fuel + 1, '<' :: rest =>
    match splitTag rest with
    | none => []
    | some (tag, rest') =>
      if tag = String.toList "script" then
        htmlToMdAux fuel (dropScriptBody rest')
      else if tag = String.toList "b" ∨ tag = String.toList "strong" then
        '*' :: '*' :: htmlToMdAux fuel rest'
      else if tag = String.toList "/b" ∨ tag = String.toList "/strong" then
        '*' :: '*' :: htmlToMdAux fuel rest'
      else
        htmlToMdAux fuel rest'
  | fuel + 1, c :: rest => c :: htmlToMdAux fuel rest

/-- Modelled from the spec: `html2md::parse_html`, the ContentSanitizer's
HTML-to-Markdown normalization (an external crate). Per the spec it strips
executable/markup elements such as script tags entirely rather than escaping
them, while converting safe markup (bold) to Markdown emphasis and keeping
text content. -/
def parse_html (s : String) : String :=
  (htmlToMdAux (s.toList.length + 1) s.toList).asString

/-- The observable collaborator effects of one `from_apub` run, in order. -/
inductive Effect where
  | derefCreator
  | getParents
  | readCommunity (community_id : Nat)
  | verifyPerson
  | upsertForm (form : CommentForm)
deriving DecidableEq, Repr

/-- The storage writes among a trace of effects: the forms submitted to
`Comment::upsert`. -/
def submittedForms (trace : List Effect) : List CommentForm :=
  trace.filterMap fun e =>
    match e with
    | .upsertForm f => some f
    | _ => none

/-- `ApubComment::read_from_apub_id`: looks the comment up by protocol id via
the storage oracle and wraps a present row; absence flows through as a
successful `none`. -/
def read_from_apub_id (object_id : Url)
    (storage_read : Url → Except LemmyError (Option Comment)) :
    Except LemmyError (Option ApubComment) :=
  match storage_read object_id with
  | .error e => .error e
  | .ok o => .ok (o.map ApubComment.mk)

/-- `ApubComment::to_apub`: reads the creator, the post and (when `parent_id`
is set) the parent comment through the storage oracles and assembles the wire
`Note`. -/
def to_apub (self : Comment) (markdown_to_html : String → String)
    (read_person : Nat → Except LemmyError Person)
    (read_post : Nat → Except LemmyError Post)
    (read_comment : Nat → Except LemmyError Comment) :
    Except LemmyError Note :=
  match read_person self.creator_id with
  | .error e => .error e
  | .ok creator =>
    match read_post self.post_id with
    | .error e => .error e
    | .ok post =>
      let in_reply_to_result : Except LemmyError Url :=
        match self.parent_id with
        | some comment_id =>
          match read_comment comment_id with
          | .error e => .error e
          | .ok parent_comment => .ok parent_comment.ap_id
        | none => .ok post.ap_id
      match in_reply_to_result with
      | .error e => .error e
      | .ok in_reply_to =>
        .ok
          { type := NoteType.Note
            id := self.ap_id
            attributed_to := creator.actor_id
            to' := [publicUrl]
            content := markdown_to_html self.content
            media_type := some MediaTypeHtml.Html
            source := SourceCompat.Lemmy
              { content := self.content
                media_type := MediaTypeMarkdown.Markdown }
            in_reply_to := in_reply_to
            published := some self.published
            updated := self.updated
            unparsed := () }

/-- `ApubComment::to_tombstone`: `Tombstone::new(NoteType::Note,
self.updated.unwrap_or(self.published))`. -/
def to_tombstone (self : Comment) : Except LemmyError Tombstone :=
  .ok { type := NoteType.Note, updated := self.updated.getD self.published }

/-- The `CommentForm` that `from_apub` builds (source lines 163–182): body
from the Lemmy source block when present, otherwise from `parse_html` of the
rendered content; slurs removed; moderation flags left unset; `local` false;
`ap_id` the validated wire identifier. -/
def mkCommentForm (note : Note) (creator : Person) (post : Post)
    (parent_comment_id : Option Nat) (apId : Url)
    (slur_filter : String → String) : CommentForm :=
  let content :=
    match note.source with
    | .Lemmy source => source.content
    | .Pleroma _ => parse_html note.content
  let content_slurs_removed := slur_filter content
  { creator_id := creator.id
    post_id := post.id
    parent_id := parent_comment_id
    content := content_slurs_removed
    removed := none
    read := none
    published := note.published
    updated := note.updated
    deleted := none
    ap_id := some apId
    is_local := some false }

/-- `ApubComment::from_apub`: validates the identifier against the expected
domain, dereferences the author, resolves the parent chain, reads the owning
community, verifies the author against the community, rejects locked posts,
determines the body (source block or HTML re-derivation), filters slurs,
builds the form and upserts. The second component is the ordered effect
trace. -/
def from_apub (note : Note) (expected_domain : Url)
    (deref_attributed_to : Except LemmyError Person)
    (get_parents : Except LemmyError (Post × Option Nat))
    (read_community : Nat → Except LemmyError Community)
    (verify_person_in_community : Community → Except LemmyError Unit)
    (slur_filter : String → String)
    (upsert : CommentForm → Except LemmyError Comment) :
    Except LemmyError ApubComment × List Effect :=
  match checkApubId note.id expected_domain with
  | .error e => (.error e, [])
  | .ok apId =>
    match deref_attributed_to with
    | .error e => (.error e, [.derefCreator])
    | .ok creator =>
      match get_parents with
      | .error e => (.error e, [.derefCreator, .getParents])
      | .ok (post, parent_comment_id) =>
        match read_community post.community_id with
        | .error e =>
          (.error e,
           [.derefCreator, .getParents, .readCommunity post.community_id])
        | .ok community =>
          match verify_person_in_community community with
          | .error e =>
            (.error e,
             [.derefCreator, .getParents, .readCommunity post.community_id,
              .verifyPerson])
          | .ok _ =>
            if post.locked then
              (.error .postIsLocked,
               [.derefCreator, .getParents, .readCommunity post.community_id,
                .verifyPerson])
            else
              let form :=
                mkCommentForm note creator post parent_comment_id apId
                  slur_filter
              match upsert form with
              | .error e =>
                (.error e,
                 [.derefCreator, .getParents,
                  .readCommunity post.community_id, .verifyPerson,
                  .upsertForm form])
              | .ok comment =>
                (.ok ⟨comment⟩,
                 [.derefCreator, .getParents,
                  .readCommunity post.community_id, .verifyPerson,
                  .upsertForm form])

/-! Concrete fixtures used by the witness theorems. -/

def url0 : Url := { host := "enterprise.lemmy.ml", path := "/comment/38741" }

def otherDomain : Url := { host := "other.example", path := "/" }

def person0 : Person :=
  { id := 7, actor_id := { host := "enterprise.lemmy.ml", path := "/u/picard" } }

def community0 : Community := { id := 3 }

def post0 : Post :=
  { id := 11, community_id := 3
    ap_id := { host := "enterprise.lemmy.ml", path := "/post/55" }
    locked := false }

def post_locked0 : Post := { post0 with locked := true }

def comment0 : Comment :=
  { id := 1, creator_id := 7, post_id := 11, parent_id := none
    content := "hello", removed := false, read := false, published := 100
    updated := none, deleted := false, ap_id := url0, is_local := true }

def comment_nonlocal : Comment := { comment0 with is_local := false }

def mdRender : String → String := fun s => "<p>" ++ s ++ "</p>"

def slurId : String → String := fun s => s

def readPerson0 : Nat → Except LemmyError Person := fun _ => .ok person0

def readPost0 : Nat → Except LemmyError Post := fun _ => .ok post0

def readComment0 : Nat → Except LemmyError Comment := fun _ => .ok comment0

def derefOk : Except LemmyError Person := .ok person0

def getParentsOk : Except LemmyError (Post × Option Nat) := .ok (post0, none)

def getParentsLocked : Except LemmyError (Post × Option Nat) :=
  .ok (post_locked0, none)

def readCommunityOk : Nat → Except LemmyError Community := fun _ => .ok community0

def verifyOk : Community → Except LemmyError Unit := fun _ => .ok ()

def verifyDenied : Community → Except LemmyError Unit := fun _ => .error .notPermitted

def upsertOk : CommentForm → Except LemmyError Comment := fun _ => .ok comment0

/-- The wire object `to_apub` produces from `comment0` with the fixture
oracles. -/
def noteRT : Note :=
  { type := .Note, id := url0, attributed_to := person0.actor_id
    to' := [publicUrl], content := mdRender comment0.content
    media_type := some .Html
    source := .Lemmy { content := comment0.content, media_type := .Markdown }
    in_reply_to := post0.ap_id, published := some comment0.published
    updated := none, unparsed := () }

/-- The form `from_apub` submits when fed `noteRT` with the fixture oracles. -/
def rtForm : CommentForm := mkCommentForm noteRT person0 post0 none url0 slurId

/-- Inversion helper: whenever `to_apub` succeeds, the produced note carries
the rendered content, the unconditional Lemmy source block with the stored
Markdown, the entity's own protocol id, and the html media type. -/
theorem to_apub_ok_fields {self : Comment} {md : String → String}
    {rp : Nat → Except LemmyError Person} {rpo : Nat → Except LemmyError Post}
    {rc : Nat → Except LemmyError Comment} {note : Note}
    (h : to_apub self md rp rpo rc = .ok note) :
    note.content = md self.content ∧
    note.source = SourceCompat.Lemmy
      { content := self.content, media_type := MediaTypeMarkdown.Markdown } ∧
    note.id = self.ap_id ∧ note.media_type = some MediaTypeHtml.Html := by
  unfold to_apub at h
  cases hp : rp self.creator_id with
  | error e => simp [hp] at h
  | ok creator =>
    cases hpo : rpo self.post_id with
    | error e => simp [hp, hpo] at h
    | ok post =>
      cases hpar : self.parent_id with
      | none =>
        simp only [hp, hpo, hpar] at h
        simp at h
        subst h
        exact ⟨rfl, rfl, rfl, rfl⟩
      | some comment_id =>
        cases hpc : rc comment_id with
        | error e => simp [hp, hpo, hpar, hpc] at h
        | ok parent_comment =>
          simp only [hp, hpo, hpar, hpc] at h
          simp at h
          subst h
          exact ⟨rfl, rfl, rfl, rfl⟩

/-- C7: the HTML-to-Markdown normalization used on the inbound
no-source-block path strips script elements entirely while converting bold
markup, so `parse_html "<script></script><b>hello</b>"` is exactly
`"**hello**"`. -/
theorem parse_html_sanitizes_script_preserving_bold :
    parse_html "<script></script><b>hello</b>" = "**hello**" := by decide

/-- C8: `to_tombstone` always succeeds, has no effects (it is a pure
function), and stamps the tombstone with the `updated` timestamp when
present and the `published` timestamp otherwise. -/
theorem to_tombstone_updated_else_published (c : Comment) :
    (∀ u, c.updated = some u →
      to_tombstone c = .ok { type := NoteType.Note, updated := u }) ∧
    (c.updated = none →
      to_tombstone c = .ok { type := NoteType.Note, updated := c.published }) := by
  constructor
  · intro u hu
    simp [to_tombstone, hu]
  · intro hu
    simp [to_tombstone, hu]

/-- Witness for C8 at concrete inputs: one comment with `updated` set, whose
tombstone carries that timestamp. -/
theorem to_tombstone_updated_else_published_witness :
    ({ comment0 with updated := some 5 } : Comment).updated = some 5 ∧
    to_tombstone { comment0 with updated := some 5 } =
      .ok { type := NoteType.Note, updated := 5 } :=
  ⟨rfl, (to_tombstone_updated_else_published _).1 5 rfl⟩

/-- C10: `read_from_apub_id` distinguishes absence from failure — a lookup
with no stored row is a successful `none`, a present row is a successful
`some`, and the error channel carries exactly the storage failures. -/
theorem read_from_apub_id_absence_is_not_failure (u : Url)
    (storage_read : Url → Except LemmyError (Option Comment)) :
    (storage_read u = .ok none → read_from_apub_id u storage_read = .ok none) ∧
    (∀ c, storage_read u = .ok (some c) →
      read_from_apub_id u storage_read = .ok (some ⟨c⟩)) ∧
    (∀ e, storage_read u = .error e →
      read_from_apub_id u storage_read = .error e) := by
  refine ⟨?_, ?_, ?_⟩
  · intro h
    simp [read_from_apub_id, h]
  · intro c h
    simp [read_from_apub_id, h]
  · intro e h
    simp [read_from_apub_id, h]

/-- Witness for C10: a storage oracle with no matching row yields a
successful `none`. -/
theorem read_from_apub_id_absence_is_not_failure_witness :
    (fun _ : Url => (.ok none : Except LemmyError (Option Comment))) url0
        = .ok none ∧
    read_from_apub_id url0 (fun _ => .ok none) = .ok none :=
  ⟨rfl, (read_from_apub_id_absence_is_not_failure url0 _).1 rfl⟩

/-- C6: `from_apub` validates the declared identifier's domain against the
expected domain first; on mismatch it fails with the verification error
before any author or parent resolution (the effect trace is empty) and the
identifier is not rewritten. -/
theorem from_apub_domain_mismatch_fails_first {note : Note}
    {expected_domain : Url} {deref : Except LemmyError Person}
    {gp : Except LemmyError (Post × Option Nat)}
    {rc : Nat → Except LemmyError Community}
    {vf : Community → Except LemmyError Unit} {sf : String → String}
    {up : CommentForm → Except LemmyError Comment}
    (h : note.id.host ≠ expected_domain.host) :
    from_apub note expected_domain deref gp rc vf sf up =
      (.error .domainMismatch, []) := by
  simp [from_apub, checkApubId, h]

/-- Witness for C6: a note fetched against a foreign domain is rejected with
no resolution performed. -/
theorem from_apub_domain_mismatch_fails_first_witness :
    noteRT.id.host ≠ otherDomain.host ∧
    from_apub noteRT otherDomain derefOk getParentsOk readCommunityOk
        verifyOk slurId upsertOk = (.error .domainMismatch, []) :=
  ⟨by decide, from_apub_domain_mismatch_fails_first (by decide)⟩

/-- C3: against a locked root post, `from_apub` fails with the closed-thread
error and submits no form to the upsert. -/
theorem from_apub_locked_post_rejected {note : Note} {dom : Url}
    {deref : Except LemmyError Person}
    {gp : Except LemmyError (Post × Option Nat)}
    {rc : Nat → Except LemmyError Community}
    {vf : Community → Except LemmyError Unit} {sf : String → String}
    {up : CommentForm → Except LemmyError Comment}
    {creator : Person} {post : Post} {pcid : Option Nat}
    {community : Community}
    (h1 : note.id.host = dom.host)
    (h2 : deref = .ok creator)
    (h3 : gp = .ok (post, pcid))
    (h4 : rc post.community_id = .ok community)
    (h5 : vf community = .ok ())
    (h6 : post.locked = true) :
    (from_apub note dom deref gp rc vf sf up).1 = .error .postIsLocked ∧
    submittedForms (from_apub note dom deref gp rc vf sf up).2 = [] := by
  subst h2
  subst h3
  refine ⟨?_, ?_⟩ <;>
    simp [from_apub, checkApubId, h1, h4, h5, h6, submittedForms]

/-- Witness for C3: a concrete note aimed at a locked post is rejected with
no write. -/
theorem from_apub_locked_post_rejected_witness :
    noteRT.id.host = url0.host ∧
    derefOk = .ok person0 ∧
    getParentsLocked = .ok (post_locked0, none) ∧
    readCommunityOk post_locked0.community_id = .ok community0 ∧
    verifyOk community0 = .ok () ∧
    post_locked0.locked = true ∧
    ((from_apub noteRT url0 derefOk getParentsLocked readCommunityOk verifyOk
        slurId upsertOk).1 = .error .postIsLocked ∧
      submittedForms (from_apub noteRT url0 derefOk getParentsLocked
        readCommunityOk verifyOk slurId upsertOk).2 = []) :=
  ⟨rfl, rfl, rfl, rfl, rfl, rfl,
    from_apub_locked_post_rejected rfl rfl rfl rfl rfl rfl⟩

/-- C4: when the trust check against the root post's community denies the
author, `from_apub` aborts with that not-permitted failure and submits no
form to the upsert — the trust check happens strictly before the upsert. -/
theorem from_apub_trust_denied_rejected {note : Note} {dom : Url}
    {deref : Except LemmyError Person}
    {gp : Except LemmyError (Post × Option Nat)}
    {rc : Nat → Except LemmyError Community}
    {vf : Community → Except LemmyError Unit} {sf : String → String}
    {up : CommentForm → Except LemmyError Comment}
    {creator : Person} {post : Post} {pcid : Option Nat}
    {community : Community}
    (h1 : note.id.host = dom.host)
    (h2 : deref = .ok creator)
    (h3 : gp = .ok (post, pcid))
    (h4 : rc post.community_id = .ok community)
    (h5 : vf community = .error .notPermitted) :
    (from_apub note dom deref gp rc vf sf up).1 = .error .notPermitted ∧
    submittedForms (from_apub note dom deref gp rc vf sf up).2 = [] := by
  subst h2
  subst h3
  refine ⟨?_, ?_⟩ <;>
    simp [from_apub, checkApubId, h1, h4, h5, submittedForms]

/-- Witness for C4: a concrete note whose author the community denies is
dropped with no write. -/
theorem from_apub_trust_denied_rejected_witness :
    noteRT.id.host = url0.host ∧
    derefOk = .ok person0 ∧
    getParentsOk = .ok (post0, none) ∧
    readCommunityOk post0.community_id = .ok community0 ∧
    verifyDenied community0 = .error .notPermitted ∧
    ((from_apub noteRT url0 derefOk getParentsOk readCommunityOk verifyDenied
        slurId upsertOk).1 = .error .notPermitted ∧
      submittedForms (from_apub noteRT url0 derefOk getParentsOk
        readCommunityOk verifyDenied slurId upsertOk).2 = []) :=
  ⟨rfl, rfl, rfl, rfl, rfl,
    from_apub_trust_denied_rejected rfl rfl rfl rfl rfl⟩

/-- Success-path helper: when every step succeeds up to the lock check, the
effect trace of `from_apub` is exactly the five collaborator calls ending in
the upsert of the built form, whatever the upsert returns. -/
theorem from_apub_success_trace {note : Note} {dom : Url}
    {deref : Except LemmyError Person}
    {gp : Except LemmyError (Post × Option Nat)}
    {rc : Nat → Except LemmyError Community}
    {vf : Community → Except LemmyError Unit} {sf : String → String}
    {up : CommentForm → Except LemmyError Comment}
    {creator : Person} {post : Post} {pcid : Option Nat}
    {community : Community}
    (h1 : note.id.host = dom.host)
    (h2 : deref = .ok creator)
    (h3 : gp = .ok (post, pcid))
    (h4 : rc post.community_id = .ok community)
    (h5 : vf community = .ok ())
    (h6 : post.locked = false) :
    (from_apub note dom deref gp rc vf sf up).2 =
      [.derefCreator, .getParents, .readCommunity post.community_id,
       .verifyPerson,
       .upsertForm (mkCommentForm note creator post pcid note.id sf)] := by
  subst h2
  subst h3
  cases hu : up (mkCommentForm note creator post pcid note.id sf) <;>
    simp [from_apub, checkApubId, h1, h4, h5, h6, hu]

/-- C2: on the success path, the form submitted to the upsert carries as body
the slur-filtered literal Markdown of the Lemmy source block when the wire
object has one, and the slur-filtered HTML-to-Markdown conversion of the
rendered content otherwise. -/
theorem from_apub_body_selection {note : Note} {dom : Url}
    {deref : Except LemmyError Person}
    {gp : Except LemmyError (Post × Option Nat)}
    {rc : Nat → Except LemmyError Community}
    {vf : Community → Except LemmyError Unit} {sf : String → String}
    {up : CommentForm → Except LemmyError Comment}
    {creator : Person} {post : Post} {pcid : Option Nat}
    {community : Community}
    (h1 : note.id.host = dom.host)
    (h2 : deref = .ok creator)
    (h3 : gp = .ok (post, pcid))
    (h4 : rc post.community_id = .ok community)
    (h5 : vf community = .ok ())
    (h6 : post.locked = false) :
    (submittedForms
        (from_apub note dom deref gp rc vf sf up).2).map CommentForm.content
      = [sf (match note.source with
             | SourceCompat.Lemmy source => source.content
             | SourceCompat.Pleroma _ => parse_html note.content)] := by
  rw [from_apub_success_trace h1 h2 h3 h4 h5 h6]
  simp [submittedForms, mkCommentForm]

/-- Witness for C2: the concrete note with a Lemmy source block flows through
to a single submitted form with the filtered source-block body. -/
theorem from_apub_body_selection_witness :
    noteRT.id.host = url0.host ∧
    derefOk = .ok person0 ∧
    getParentsOk = .ok (post0, none) ∧
    readCommunityOk post0.community_id = .ok community0 ∧
    verifyOk community0 = .ok () ∧
    post0.locked = false ∧
    (submittedForms
        (from_apub noteRT url0 derefOk getParentsOk readCommunityOk verifyOk
          slurId upsertOk).2).map CommentForm.content
      = [slurId (match noteRT.source with
                 | SourceCompat.Lemmy source => source.content
                 | SourceCompat.Pleroma _ => parse_html noteRT.content)] :=
  ⟨rfl, rfl, rfl, rfl, rfl, rfl,
    from_apub_body_selection rfl rfl rfl rfl rfl rfl⟩

/-- C9: every form `from_apub` ever submits to the upsert leaves the
moderation-removed, read and deleted flags unset (`none`), so the federated
path never sets or clears them on an existing row. -/
theorem from_apub_leaves_moderation_flags_unset (note : Note) (dom : Url)
    (deref : Except LemmyError Person)
    (gp : Except LemmyError (Post × Option Nat))
    (rc : Nat → Except LemmyError Community)
    (vf : Community → Except LemmyError Unit) (sf : String → String)
    (up : CommentForm → Except LemmyError Comment) (f : CommentForm)
    (hf : f ∈ submittedForms (from_apub note dom deref gp rc vf sf up).2) :
    f.removed = none ∧ f.read = none ∧ f.deleted = none := by
  unfold from_apub at hf
  repeat' split at hf
  all_goals
    first
    | (simp [submittedForms] at hf; done)
    | (simp [submittedForms] at hf
       split at hf <;>
         (simp at hf
          subst hf
          simp [mkCommentForm]))

/-- Witness for C9: the concrete run submits exactly `rtForm`, whose
moderation flags are all `none`. -/
theorem from_apub_leaves_moderation_flags_unset_witness :
    rtForm ∈ submittedForms
        (from_apub noteRT url0 derefOk getParentsOk readCommunityOk verifyOk
          slurId upsertOk).2 ∧
    (rtForm.removed = none ∧ rtForm.read = none ∧ rtForm.deleted = none) :=
  ⟨by decide,
    from_apub_leaves_moderation_flags_unset noteRT url0 derefOk getParentsOk
      readCommunityOk verifyOk slurId upsertOk rtForm (by decide)⟩

/-- C1 counterexample: the claim says a non-local entity's wire form carries
the type-tagged compatibility source block instead of the literal-Markdown
variant; but `to_apub` of a non-local comment still attaches the Lemmy
literal-Markdown source block — the `local` flag is never consulted. -/
theorem to_apub_nonlocal_still_lemmy_source :
    comment_nonlocal.is_local = false ∧
    (to_apub comment_nonlocal mdRender readPerson0 readPost0
        readComment0).map Note.source
      = .ok (SourceCompat.Lemmy
          { content := comment_nonlocal.content
            media_type := MediaTypeMarkdown.Markdown }) :=
  ⟨rfl, rfl⟩

/-- C1 (amended): for every entity, `to_apub` renders the stored Markdown to
hypertext for the primary content field and always attaches the untouched
stored Markdown as the Lemmy source block with the markdown media type,
regardless of the entity's local flag. -/
theorem to_apub_renders_and_attaches_lemmy_source {self : Comment}
    {md : String → String} {rp : Nat → Except LemmyError Person}
    {rpo : Nat → Except LemmyError Post}
    {rc : Nat → Except LemmyError Comment} {note : Note}
    (h : to_apub self md rp rpo rc = .ok note) :
    note.content = md self.content ∧
    note.source = SourceCompat.Lemmy
      { content := self.content, media_type := MediaTypeMarkdown.Markdown } :=
  ⟨(to_apub_ok_fields h).1, (to_apub_ok_fields h).2.1⟩

/-- Witness for the amended C1: the fixture comment converts successfully and
its note carries the rendered content and the Lemmy source block. -/
theorem to_apub_renders_and_attaches_lemmy_source_witness :
    to_apub comment0 mdRender readPerson0 readPost0 readComment0
        = .ok noteRT ∧
    (noteRT.content = mdRender comment0.content ∧
      noteRT.source = SourceCompat.Lemmy
        { content := comment0.content
          media_type := MediaTypeMarkdown.Markdown }) :=
  ⟨rfl,
    to_apub_renders_and_attaches_lemmy_source
      (rfl :
        to_apub comment0 mdRender readPerson0 readPost0 readComment0
          = Except.ok noteRT)⟩

/-- C5: round trip — a locally authored entity sent out with `to_apub` and
received with `from_apub` (on oracles that let each step succeed, with a slur
filter that fixes the already-filtered stored body) submits exactly one form
whose body is the original entity's body: the literal Markdown travels in the
source block and the source-block branch copies it verbatim. -/
theorem round_trip_preserves_body {c : Comment} {md : String → String}
    {rp : Nat → Except LemmyError Person} {rpo : Nat → Except LemmyError Post}
    {rcm : Nat → Except LemmyError Comment} {note : Note} {dom : Url}
    {deref : Except LemmyError Person}
    {gp : Except LemmyError (Post × Option Nat)}
    {rc : Nat → Except LemmyError Community}
    {vf : Community → Except LemmyError Unit} {sf : String → String}
    {up : CommentForm → Except LemmyError Comment}
    {creator : Person} {post : Post} {pcid : Option Nat}
    {community : Community}
    (_h_local : c.is_local = true)
    (h_to : to_apub c md rp rpo rcm = .ok note)
    (h_dom : note.id.host = dom.host)
    (h2 : deref = .ok creator)
    (h3 : gp = .ok (post, pcid))
    (h4 : rc post.community_id = .ok community)
    (h5 : vf community = .ok ())
    (h6 : post.locked = false)
    (h_filter : sf c.content = c.content) :
    (submittedForms
        (from_apub note dom deref gp rc vf sf up).2).map CommentForm.content
      = [c.content] := by
  obtain ⟨-, hsrc, -, -⟩ := to_apub_ok_fields h_to
  rw [from_apub_success_trace h_dom h2 h3 h4 h5 h6]
  simp [submittedForms, mkCommentForm, hsrc, h_filter]

/-- Witness for C5: the fixture comment round-trips through `to_apub` and
`from_apub`, and the single submitted form carries the original body. -/
theorem round_trip_preserves_body_witness :
    comment0.is_local = true ∧
    to_apub comment0 mdRender readPerson0 readPost0 readComment0
        = .ok noteRT ∧
    noteRT.id.host = url0.host ∧
    derefOk = .ok person0 ∧
    getParentsOk = .ok (post0, none) ∧
    readCommunityOk post0.community_id = .ok community0 ∧
    verifyOk community0 = .ok () ∧
    post0.locked = false ∧
    slurId comment0.content = comment0.content ∧
    (submittedForms
        (from_apub noteRT url0 derefOk getParentsOk readCommunityOk verifyOk
          slurId upsertOk).2).map CommentForm.content
      = [comment0.content] :=
  ⟨rfl, rfl, rfl, rfl, rfl, rfl, rfl, rfl, rfl,
    round_trip_preserves_body rfl
      (rfl :
        to_apub comment0 mdRender readPerson0 readPost0 readComment0
          = Except.ok noteRT)
      rfl rfl rfl rfl rfl rfl rfl⟩
